import Mathlib

/-!
Verification of the flood-risk / routing core of the bantaybaha repository.

The Python sources are shallowly embedded here:
* Python floats are modelled as exact rationals (`ℚ`); decimal constants of
  the source are written as exact fractions (e.g. `19.95` as `1995/100`) so
  that every definition evaluates inside the kernel.
* Python's built-in `round` (banker's rounding, half to even) is modelled by
  `pyRound`; `round(x, n)` by `roundTo n x`.
* fallible Python code is modelled with `Except PyError`.
* `core/geo.py` (the `haversine_km` helper) is not part of the sources we
  were given; per the spec it is a pure great-circle distance function, so
  every definition that needs it takes it as an explicit function argument.
-/

-- Batteries marks the arithmetic on `Rat` irreducible; re-allow unfolding so
-- that concrete witnesses below evaluate by kernel reduction (`decide`).
attribute [local semireducible] Rat.mul Rat.add Rat.sub Rat.inv

/-- Errors raised by the embedded Python code. -/
inductive PyError where
  | valueError
  | typeError
  | fileNotFound
  | noPath
deriving DecidableEq

/-- `clamp` as defined (identically) in risk_engine.py, upstream.py,
routing_engine.py and weather/client.py: `max(min_value, min(max_value, value))`. -/
def clamp (value minValue maxValue : ℚ) : ℚ :=
  max minValue (min maxValue value)

/-- Integer version of `clamp`, for the places where Python applies `clamp`
to integer arguments (e.g. `int(clamp(hours, 1, 6))`). -/
def intClamp (value minValue maxValue : ℤ) : ℤ :=
  max minValue (min maxValue value)

/-- Kernel-computable floor of a rational (`⌊q⌋ = q.num / q.den`). -/
def ratFloor (q : ℚ) : ℤ := q.num / (q.den : ℤ)

theorem ratFloor_eq (q : ℚ) : ratFloor q = ⌊q⌋ := Rat.floor_def.symm

/-- Python's built-in `round` on a rational: round half to even. -/
def pyRound (q : ℚ) : ℤ :=
  if q - (ratFloor q : ℚ) < 1/2 then ratFloor q
  else if 1/2 < q - (ratFloor q : ℚ) then ratFloor q + 1
  else if ratFloor q % 2 = 0 then ratFloor q else ratFloor q + 1

/-- Python's `round(x, n)`: round to `n` decimal places, half to even. -/
def roundTo (n : ℕ) (q : ℚ) : ℚ :=
  (pyRound (q * (10 : ℚ) ^ n) : ℚ) / (10 : ℚ) ^ n

/-- `classify_risk` from risk_engine.py. -/
def classify_risk (score : ℤ) : String :=
  if score ≥ 65 then "HIGH"
  else if score ≥ 35 then "MEDIUM"
  else "LOW"

/-- Rank of a risk level in the order LOW < MEDIUM < HIGH, used to state
monotonicity of `classify_risk`. -/
def riskLevelRank (level : String) : ℕ :=
  if level = "HIGH" then 2 else if level = "MEDIUM" then 1 else 0

/-- `elevation_factor` from risk_engine.py. -/
def elevation_factor (elevation_m : ℚ) : ℚ :=
  if elevation_m < 20 then 100
  else if elevation_m < 50 then 65
  else 35

/-- `river_proximity_factor` from risk_engine.py. -/
def river_proximity_factor (distance_km : ℚ) : ℚ :=
  if distance_km ≤ (5/100) then 100
  else if distance_km ≥ 20 then 0
  else clamp (((20 - distance_km) / (1995/100)) * 100) 0 100

/-- `estimate_flood_depth_m` from risk_engine.py. -/
def estimate_flood_depth_m (local_rain_mm upstream_norm elevation_m : ℚ) : ℚ :=
  let rain_signal := clamp (local_rain_mm / 120) 0 (18/10)
  let upstream_signal := clamp (upstream_norm / 100) 0 1 * (8/10)
  let elevation_scale := clamp ((12/10) - elevation_m / 250) (25/100) 1
  let depth := ((55/100) * rain_signal + (35/100) * upstream_signal) * elevation_scale
  roundTo 2 (clamp depth 0 3)

/-- `classify_flood_depth` from risk_engine.py. -/
def classify_flood_depth (level_m : ℚ) : String :=
  if level_m ≥ 2 then "2-storey-height"
  else if level_m ≥ 1 then "above-head"
  else if level_m ≥ (5/10) then "chest"
  else if level_m ≥ (2/10) then "knee"
  else "shallow"

-- Basic facts about pyRound needed for the "nearest integer" part of the
-- scoring claim.

theorem pyRound_le (q : ℚ) : (pyRound q : ℚ) ≤ q + 1/2 := by
  unfold pyRound
  simp only [ratFloor_eq]
  have hf := Int.floor_le q
  have hf' := Int.lt_floor_add_one q
  split_ifs with h1 h2 h3 <;> push_cast <;> linarith

theorem le_pyRound (q : ℚ) : q - 1/2 ≤ (pyRound q : ℚ) := by
  unfold pyRound
  simp only [ratFloor_eq]
  have hf := Int.floor_le q
  have hf' := Int.lt_floor_add_one q
  split_ifs with h1 h2 h3 <;> push_cast <;> linarith

/-- `pyRound q` is a nearest integer to `q`: no other integer is strictly
closer. -/
theorem pyRound_nearest (q : ℚ) (m : ℤ) :
    |q - (pyRound q : ℚ)| ≤ |q - (m : ℚ)| := by
  have hf := Int.floor_le q
  have hf' := Int.lt_floor_add_one q
  rcases le_or_lt (m : ℚ) (⌊q⌋ : ℚ) with hm | hm
  · -- m ≤ ⌊q⌋, so q - m ≥ q - ⌊q⌋
    have h1 : (0 : ℚ) ≤ q - m := by linarith
    have h2 : |q - (m : ℚ)| = q - m := abs_of_nonneg h1
    unfold pyRound
    simp only [ratFloor_eq]
    split_ifs with hlt hgt hev <;>
      · rw [h2, abs_le]
        constructor <;> push_cast <;> linarith
  · -- ⌊q⌋ < m as rationals, hence ⌊q⌋ + 1 ≤ m as integers
    have hm' : (⌊q⌋ : ℚ) + 1 ≤ (m : ℚ) := by
      have : ⌊q⌋ < m := by exact_mod_cast hm
      exact_mod_cast this
    have h1 : (0 : ℚ) ≤ (m : ℚ) - q := by linarith
    have h2 : |q - (m : ℚ)| = (m : ℚ) - q := by
      rw [abs_sub_comm]; exact abs_of_nonneg h1
    unfold pyRound
    simp only [ratFloor_eq]
    split_ifs with hlt hgt hev <;>
      · rw [h2, abs_le]
        constructor <;> push_cast <;> linarith

/-! ## WeatherSource (weather/client.py) -/

/-- Cache key produced by `_hourly_cache_key`.  The demo-values content hash
is modelled by the (injective) rounded value list itself; `ref = none` stands
for the literal `'now'` component (`reference_time or 'now'`). -/
structure HKey where
  lat5 : ℚ
  lng5 : ℚ
  mode : String
  ref : Option ℤ
  demo : List ℚ
deriving DecidableEq

/-- The module-level `_hourly_cache` dictionary: key ↦ (stored-at time, values). -/
def Cache := List (HKey × (ℚ × List ℚ))

/-- Dictionary lookup on the association-list model of a Python dict. -/
def alget (cache : Cache) (k : HKey) : Option (ℚ × List ℚ) :=
  match cache with
  | [] => none
  | (k', v) :: rest => if k' = k then some v else alget rest k

/-- Dictionary store `_hourly_cache[key] = value` (new binding shadows old). -/
def aset (cache : Cache) (k : HKey) (v : ℚ × List ℚ) : Cache :=
  (k, v) :: cache

/-- `_hourly_cache_key` from weather/client.py.  Python's
`reference_time or 'now'` maps `0` and `None` alike to the `'now'` marker. -/
def hourly_cache_key (lat lng : ℚ) (mode : String) (reference_time : Option ℤ)
    (demo_rainfall : List ℚ) : HKey :=
  { lat5 := roundTo 5 lat
    lng5 := roundTo 5 lng
    mode := mode
    ref := match reference_time with
           | some e => if e = 0 then none else some e
           | none => none
    demo := demo_rainfall }

/-- `DEMO_HOURS_LIMIT` from weather/client.py. -/
def DEMO_HOURS_LIMIT : ℕ := 6

/-- `parse_demo_rainfall_values` from weather/client.py, restricted to the
numeric-list input shape (`None` or a list of numbers); the comma-string and
JSON-string front ends are parsing glue feeding the same list.  Negative
values raise `ValueError`; values are rounded to one decimal and truncated to
`DEMO_HOURS_LIMIT` entries. -/
def parse_demo_rainfall_values (raw_demo_rainfall : Option (List ℚ)) :
    Except PyError (List ℚ) :=
  match raw_demo_rainfall with
  | none => .ok []
  | some items =>
      if items.all (fun v => 0 ≤ v) then
        .ok ((items.map (roundTo 1)).take DEMO_HOURS_LIMIT)
      else
        .error .valueError

/-- Key of the deterministic fallback series (`_fallback_hourly_rain` builds
the string `f"{lat:.4f}:{lng:.4f}:{reference_time or 0}"`). -/
def FKey := ℚ × ℚ × ℤ

/-- `WEATHER_CACHE_SECONDS` from weather/client.py. -/
def WEATHER_CACHE_SECONDS : ℚ := 600

/-- `_fallback_hourly_rain` from weather/client.py.  `pyHash` models Python's
process-stable (but per-process randomized) string hash. -/
def fallback_hourly_rain (pyHash : FKey → ℤ) (lat lng : ℚ) (hours : ℤ)
    (reference_time : Option ℤ) : List ℚ :=
  let safe_hours := (max 1 (min 6 hours)).toNat
  let key : FKey := (roundTo 4 lat, roundTo 4 lng, reference_time.getD 0)
  let base : ℚ := 5 + (((pyHash key) % 12).natAbs : ℚ) * (4/10)
  (List.range safe_hours).map
    (fun i : ℕ => roundTo 1 (clamp (base - (i : ℚ) * (65/100)) 0 50))

/-- Demo-series normalization from `get_hourly_rain`: zero-pad to
`safe_hours` entries, then truncate to `safe_hours`. -/
def demoPad (parsed : List ℚ) (safe_hours : ℕ) : List ℚ :=
  (parsed ++ List.replicate (safe_hours - parsed.length) 0).take safe_hours

/-- Outcome of the live/historical HTTP request in `get_hourly_rain`:
`fail` is a non-200 status or transport exception (absorbed via fallback),
`badValue` is a payload whose parsing raises `ValueError` (re-raised by the
`except ValueError: raise` clause), `records vs` is a well-formed payload
whose per-hour rain amounts are `vs`. -/
inductive ApiResult where
  | fail
  | badValue
  | records (vals : List ℚ)

/-- `parse_reference_time` from weather/client.py, restricted to the resolved
epoch representation: a missing reference time raises `ValueError`. -/
def parse_reference_time (reference_time : Option ℤ) : Except PyError ℤ :=
  match reference_time with
  | none => .error .valueError
  | some e => .ok e

/-- The network/fallback tail of `get_hourly_rain` (the code after the cache
check misses or is stale). -/
def hourly_rain_network (pyHash : FKey → ℤ) (api_key_configured : Bool)
    (api : ApiResult) (lat lng : ℚ) (safe_hours : ℕ) (reference_epoch : Option ℤ)
    (key : HKey) (cache : Cache) (now : ℚ) : Except PyError (List ℚ × Cache) :=
  if api_key_configured = false then
    let hourly := fallback_hourly_rain pyHash lat lng safe_hours reference_epoch
    .ok (hourly, aset cache key (now, hourly))
  else
    match api with
    | .badValue => .error .valueError
    | .fail =>
        let hourly := fallback_hourly_rain pyHash lat lng safe_hours reference_epoch
        .ok (hourly, aset cache key (now, hourly))
    | .records recs =>
        let values := recs.take safe_hours
        let values := if values = [] then
            fallback_hourly_rain pyHash lat lng safe_hours reference_epoch
          else values
        let values := values ++ List.replicate (safe_hours - values.length) 0
        let hourly := (values.take safe_hours).map (roundTo 1)
        .ok (hourly, aset cache key (now, hourly))

/-- Python `str.lower()` (ASCII view, which covers the mode strings). -/
def pyLower (s : String) : String := String.mk (s.data.map Char.toLower)

/-- Python `str.strip()`. -/
def pyStrip (s : String) : String :=
  String.mk (((s.data.dropWhile Char.isWhitespace).reverse.dropWhile
    Char.isWhitespace).reverse)

/-- The mode normalization `(str(weather_mode).strip().lower() or "live")`
at the top of `get_hourly_rain`. -/
def normalize_weather_mode (weather_mode : String) : String :=
  if pyLower (pyStrip weather_mode) = "" then "live" else pyLower (pyStrip weather_mode)

/-- The demo branch of `get_hourly_rain` (weather/client.py lines 220-235). -/
def get_hourly_rain_demo (lat lng : ℚ) (safe_hours : ℕ)
    (demo_rainfall : Option (List ℚ)) (cache : Cache) (now : ℚ) :
    Except PyError (List ℚ × Cache) :=
  match parse_demo_rainfall_values demo_rainfall with
  | .error e => .error e
  | .ok parsed =>
      let demo_values := demoPad parsed safe_hours
      let key := hourly_cache_key lat lng "demo" none demo_values
      match alget cache key with
      | some (cached_at, cached_values) =>
          if now - cached_at < WEATHER_CACHE_SECONDS ∧ safe_hours ≤ cached_values.length then
            .ok ((cached_values.take safe_hours).map (roundTo 1), cache)
          else
            .ok (demo_values, aset cache key (now, demo_values))
      | none => .ok (demo_values, aset cache key (now, demo_values))

/-- The live/historical branch of `get_hourly_rain` (weather/client.py lines
237-297). -/
def get_hourly_rain_nondemo (pyHash : FKey → ℤ) (api_key_configured : Bool)
    (api : ApiResult) (lat lng : ℚ) (safe_hours : ℕ) (is_historical : Bool)
    (reference_time : Option ℤ) (cache : Cache) (now : ℚ) :
    Except PyError (List ℚ × Cache) :=
  match (if is_historical then (parse_reference_time reference_time).map some
         else .ok none : Except PyError (Option ℤ)) with
  | .error e => .error e
  | .ok reference_epoch =>
      let key := hourly_cache_key lat lng (if is_historical then "historical" else "live")
        reference_epoch []
      match alget cache key with
      | some (cached_at, values) =>
          if now - cached_at < WEATHER_CACHE_SECONDS ∧ safe_hours ≤ values.length then
            .ok ((values.take safe_hours).map (roundTo 1), cache)
          else
            hourly_rain_network pyHash api_key_configured api lat lng safe_hours
              reference_epoch key cache now
      | none =>
          hourly_rain_network pyHash api_key_configured api lat lng safe_hours
            reference_epoch key cache now

/-- `get_hourly_rain` from weather/client.py.  State (the `_hourly_cache`
dict) is passed explicitly; `now` is the value of `time.time()`;
`api_key_configured` is whether `settings.OPENWEATHER_API_KEY` holds a real
key; `pyHash` and `api` model the ambient hash function and HTTP response. -/
def get_hourly_rain (pyHash : FKey → ℤ) (api_key_configured : Bool)
    (api : ApiResult) (lat lng : ℚ) (hours : ℤ) (weather_mode : String)
    (reference_time : Option ℤ) (demo_rainfall : Option (List ℚ))
    (cache : Cache) (now : ℚ) : Except PyError (List ℚ × Cache) :=
  let safe_hours := (max 1 (min 6 hours)).toNat
  let mode := normalize_weather_mode weather_mode
  if mode = "demo" then
    get_hourly_rain_demo lat lng safe_hours demo_rainfall cache now
  else
    get_hourly_rain_nondemo pyHash api_key_configured api lat lng safe_hours
      (mode = "historical") reference_time cache now

/-- `get_hourly_rain_sum` from weather/client.py. -/
def get_hourly_rain_sum (pyHash : FKey → ℤ) (api_key_configured : Bool)
    (api : ApiResult) (lat lng : ℚ) (hours : ℤ) (weather_mode : String)
    (reference_time : Option ℤ) (demo_rainfall : Option (List ℚ))
    (cache : Cache) (now : ℚ) : Except PyError (ℚ × Cache) :=
  (get_hourly_rain pyHash api_key_configured api lat lng hours weather_mode
      reference_time demo_rainfall cache now).map
    (fun r => (roundTo 1 r.1.sum, r.2))

/-! ## UpstreamPropagator (risk/upstream.py) -/

/-- `FLOW_SPEED_MPS` from risk/upstream.py. -/
def FLOW_SPEED_MPS : ℚ := 1

/-- `DECAY_DISTANCE_M` from risk/upstream.py. -/
def DECAY_DISTANCE_M : ℚ := 20000

/-- A node of the directed river-flow graph; `lat`/`lng` model
`attrs.get("lat")` / `attrs.get("lng")`, which may be absent. -/
structure RiverNode where
  id : String
  lat : Option ℚ
  lng : Option ℚ

/-- A directed edge of the river graph with its `length_m` attribute. -/
structure RiverEdge where
  src : String
  dst : String
  length_m : ℚ

/-- The directed river-flow graph (`nx.DiGraph`). -/
structure RiverGraph where
  nodes : List RiverNode
  edges : List RiverEdge

/-- `nearest_river_node_id` from risk/upstream.py: linear scan keeping the
strictly closest node seen so far (nodes without coordinates skipped). -/
def nearest_river_node_id (hv : ℚ → ℚ → ℚ → ℚ → ℚ) (graph : RiverGraph)
    (lat lng : ℚ) : Option String :=
  (graph.nodes.foldl (fun acc node =>
    match node.lat, node.lng with
    | some node_lat, some node_lng =>
        let distance := hv lat lng node_lat node_lng
        match acc with
        | some (_, nearest_distance) =>
            if distance < nearest_distance then some (node.id, distance) else acc
        | none => some (node.id, distance)
    | _, _ => acc) none).map Prod.fst

/-- `_travel_distance_to_max` from risk/upstream.py. -/
def travel_distance_to_max (horizon_hours : ℤ) : ℚ :=
  ((intClamp horizon_hours 1 6 : ℤ) : ℚ) * 3600 * FLOW_SPEED_MPS

/-- Distance-map lookup (first binding wins, mirroring dict semantics under
the shadowing `aset`-style insertions below). -/
def dget (dist : List (String × ℚ)) (k : String) : Option ℚ :=
  match dist with
  | [] => none
  | (k', v) :: rest => if k' = k then some v else dget rest k

/-- One pass of edge relaxation on the reversed river graph, with the
networkx cutoff pruning (`vu_dist > cutoff → continue`).  An original edge
`src → dst` is traversed in reverse, i.e. from `dst` to `src`. -/
def relaxReverse (edges : List RiverEdge) (cutoff : ℚ)
    (dist : List (String × ℚ)) : List (String × ℚ) :=
  edges.foldl (fun d e =>
    match dget d e.dst with
    | none => d
    | some dv =>
        let nd := dv + e.length_m
        if nd > cutoff then d
        else
          match dget d e.src with
          | none => (e.src, nd) :: d
          | some du => if nd < du then (e.src, nd) :: d else d) dist

/-- `nx.single_source_dijkstra_path_length(graph.reverse(), source,
cutoff, weight="length_m")`: shortest reverse-traversal distances from
`source`, bounded by `cutoff`, computed by iterated relaxation and listed in
node order with duplicate ids collapsed. -/
def upstream_path_lengths (graph : RiverGraph) (source : String) (cutoff : ℚ) :
    List (String × ℚ) :=
  let start : List (String × ℚ) := if (0 : ℚ) ≤ cutoff then [(source, 0)] else []
  let final := (List.range (graph.nodes.length + 1)).foldl
    (fun d _ => relaxReverse graph.edges cutoff d) start
  ((graph.nodes.map RiverNode.id).dedup).filterMap
    (fun nid => (dget final nid).map (fun d => (nid, d)))

/-- One entry of `dominant_payload` in `compute_upstream_rain_index`. -/
structure DominantPoint where
  lat : ℚ
  lng : ℚ
  distance_m : ℚ
  rain_sum : ℚ
  weighted_signal : ℚ
  node_id : String

/-- The dictionary returned by `compute_upstream_rain_index`. -/
structure UpstreamSummary where
  upstream_rain_index : ℚ
  upstream_rain_index_norm : ℚ
  upstream_nodes_used : ℕ
  max_upstream_distance_m : ℚ
  dominant_upstream_points : List DominantPoint
  expected_peak_in_hours : Option ℚ
  max_distance_m : ℚ

/-- The zero-valued summary returned for an empty/missing graph or when no
nearest node exists. -/
def zeroUpstreamSummary (horizon_hours : ℤ) : UpstreamSummary :=
  { upstream_rain_index := 0
    upstream_rain_index_norm := 0
    upstream_nodes_used := 0
    max_upstream_distance_m := 0
    dominant_upstream_points := []
    expected_peak_in_hours := none
    max_distance_m := travel_distance_to_max horizon_hours }

/-- `river_graph.nodes[node_id]` attribute lookup (first node with the id). -/
def riverNodeAttrs (graph : RiverGraph) (nid : String) : Option ℚ × Option ℚ :=
  match graph.nodes.find? (fun n => n.id = nid) with
  | some n => (n.lat, n.lng)
  | none => (none, none)

/-- The per-node accumulation loop of `compute_upstream_rain_index`:
returns `(total_weighted, dominant_payload)`toward the final summary.
`rainSum` models `get_hourly_rain_sum(node_lat, node_lng, horizon_hours)`
(upstream.py passes no weather mode, so this is the live-mode scalar) and
`expf` models `math.exp`. -/
def upstream_accumulate (graph : RiverGraph) (rainSum : ℚ → ℚ → ℤ → ℚ)
    (expf : ℚ → ℚ) (horizon_hours : ℤ)
    (upstream_nodes : List (String × ℚ)) : ℚ × List DominantPoint :=
  upstream_nodes.foldl (fun acc item =>
    match riverNodeAttrs graph item.1 with
    | (some node_lat, some node_lng) =>
        let rain_total := rainSum node_lat node_lng horizon_hours
        let distance := item.2
        let weight := expf (-distance / DECAY_DISTANCE_M)
        let weighted_signal := rain_total * weight
        (acc.1 + weighted_signal,
         acc.2 ++ [{ lat := node_lat
                     lng := node_lng
                     distance_m := roundTo 1 distance
                     rain_sum := rain_total
                     weighted_signal := roundTo 3 weighted_signal
                     node_id := item.1 }])
    | _ => acc) (0, [])

/-- `compute_upstream_rain_index` from risk/upstream.py.  `river_graph` is
the result of `_load_river_graph()` (`none` when the gpickle file is missing
or unreadable). -/
def compute_upstream_rain_index (hv : ℚ → ℚ → ℚ → ℚ → ℚ)
    (rainSum : ℚ → ℚ → ℤ → ℚ) (expf : ℚ → ℚ) (river_graph : Option RiverGraph)
    (lat lng : ℚ) (horizon_hours : ℤ) : UpstreamSummary :=
  let horizon := intClamp horizon_hours 1 6
  match river_graph with
  | none => zeroUpstreamSummary horizon
  | some graph =>
      if graph.nodes.length = 0 then zeroUpstreamSummary horizon
      else
        match nearest_river_node_id hv graph lat lng with
        | none => zeroUpstreamSummary horizon
        | some source =>
            let max_distance_m := travel_distance_to_max horizon
            let upstream_nodes := upstream_path_lengths graph source max_distance_m
            let acc := upstream_accumulate graph rainSum expf horizon upstream_nodes
            let total_weighted := acc.1
            let dominant_payload := acc.2.mergeSort
              (fun a b => b.weighted_signal ≤ a.weighted_signal)
            let top_points := dominant_payload.take 3
            let expected_peak_in_hours := dominant_payload.head?.map
              (fun top => roundTo 2 (top.distance_m / (FLOW_SPEED_MPS * 3600)))
            let max_upstream_distance :=
              (upstream_nodes.map Prod.snd).foldl max 0
            let upstream_rain_index_norm :=
              clamp ((total_weighted / 200) * 100) 0 100
            { upstream_rain_index := roundTo 3 total_weighted
              upstream_rain_index_norm := roundTo 3 upstream_rain_index_norm
              upstream_nodes_used := upstream_nodes.length
              max_upstream_distance_m := roundTo 1 max_upstream_distance
              dominant_upstream_points := top_points
              expected_peak_in_hours := expected_peak_in_hours
              max_distance_m := roundTo 1 max_distance_m }

/-! ## FloodRiskScorer (risk/risk_engine.py) -/

/-- The parameter list of `compute_upstream_rain_index` as defined in
risk/upstream.py line 61: `def compute_upstream_rain_index(lat, lng,
horizon_hours=6)`. -/
def compute_upstream_rain_index_params : List String :=
  ["lat", "lng", "horizon_hours"]

/-- The keyword arguments `estimate_flood_risk` (risk_engine.py lines
293-301) passes to `compute_upstream_rain_index` (`lat` and `lng` are passed
positionally). -/
def estimate_flood_risk_upstream_keywords : List String :=
  ["horizon_hours", "weather_mode", "reference_time", "demo_rainfall",
   "demo_upstream_rainfall"]

/-- Python call semantics: a call raises `TypeError` before entering the
callee whenever it passes a keyword argument that is not in the callee's
parameter list (the callee declares no `**kwargs`). -/
def estimate_flood_risk_upstream_call_ok : Bool :=
  estimate_flood_risk_upstream_keywords.all
    (fun kw => compute_upstream_rain_index_params.contains kw)

/-- The record assembled and returned by `estimate_flood_risk` (explanation
strings omitted: no claim concerns them). -/
structure RiskAssessment where
  risk_score : ℤ
  risk_level : String
  expected_peak_in_hours : Option ℚ
  estimated_flood_level_m : ℚ
  flood_level_zone : String
  upstream_summary : UpstreamSummary

/-- The body of `estimate_flood_risk` (risk_engine.py lines 277-347) given
its data-gathering collaborators: `rainSumAt` is
`get_forecast_rainfall_sum_mm`, `elevationAt` is `get_elevation_meters` with
remote lookup allowed, `riverKmAt` is `distance_to_nearest_river_km`,
`histAt` is `historical_flood_factor` and `upstreamAt` is the value the
`compute_upstream_rain_index` call would produce. -/
def estimate_flood_risk_core (rainSumAt : ℚ → ℚ → ℤ → ℚ)
    (elevationAt : ℚ → ℚ → ℚ) (riverKmAt : ℚ → ℚ → ℚ)
    (histAt : ℚ → ℚ → ℚ × Bool) (upstreamAt : ℚ → ℚ → ℤ → UpstreamSummary)
    (lat lng : ℚ) (hours : ℤ) : RiskAssessment :=
  let safe_hours := intClamp hours 1 6
  let local_rain_3h := rainSumAt lat lng safe_hours
  let elevation_m := elevationAt lat lng
  let elev_factor := elevation_factor elevation_m
  let river_distance := riverKmAt lat lng
  let river_factor := river_proximity_factor river_distance
  let hist := histAt lat lng
  let upstream := upstreamAt lat lng safe_hours
  let upstream_norm := upstream.upstream_rain_index_norm
  let raw_score :=
    local_rain_3h * (35/100) + upstream_norm * (35/100) + river_factor * (15/100)
      + elev_factor * (1/10) + hist.1 * (5/100)
  let risk_score := pyRound (clamp raw_score 0 100)
  let estimated_water_level := estimate_flood_depth_m local_rain_3h upstream_norm elevation_m
  { risk_score := risk_score
    risk_level := classify_risk risk_score
    expected_peak_in_hours := upstream.expected_peak_in_hours
    estimated_flood_level_m := estimated_water_level
    flood_level_zone := classify_flood_depth estimated_water_level
    upstream_summary := upstream }

/-- `estimate_flood_risk` from risk_engine.py: the pipeline above, guarded by
the Python call check for its `compute_upstream_rain_index(...)` call site,
which passes keyword arguments the callee does not declare. -/
def estimate_flood_risk (rainSumAt : ℚ → ℚ → ℤ → ℚ)
    (elevationAt : ℚ → ℚ → ℚ) (riverKmAt : ℚ → ℚ → ℚ)
    (histAt : ℚ → ℚ → ℚ × Bool) (upstreamAt : ℚ → ℚ → ℤ → UpstreamSummary)
    (lat lng : ℚ) (hours : ℤ) : Except PyError RiskAssessment :=
  if estimate_flood_risk_upstream_call_ok then
    .ok (estimate_flood_risk_core rainSumAt elevationAt riverKmAt histAt
      upstreamAt lat lng hours)
  else
    .error .typeError

/-- The spec's score formula, written as the claim words it:
`0.35·rainfall + 0.35·upstream_norm + 0.15·river_factor +
0.10·elevation_factor + 0.05·historical_factor`. -/
def spec_weighted_score (rainfall_sum upstream_norm river_proximity elevation historical : ℚ) : ℚ :=
  (35/100) * rainfall_sum + (35/100) * upstream_norm + (15/100) * river_proximity
    + (10/100) * elevation + (5/100) * historical

/-! ## SafeRouter (routing/routing_engine.py) -/

/-- A road-graph node: `x` is longitude, `y` latitude (OSMnx convention). -/
structure RoadNode where
  id : ℤ
  x : ℚ
  y : ℚ

/-- A road edge with its `length` attribute (missing in some OSM data, hence
optional; `edge_cost` defaults it to `1.0`) and its lazily computed
`hazard_score`. -/
structure RoadEdge where
  edgeSrc : ℤ
  edgeDst : ℤ
  length : Option ℚ
  hazard_score : Option ℚ

/-- The road graph (`nx.MultiDiGraph`; parallel edges are simply repeated
entries of the edge list). -/
structure RoadGraph where
  nodes : List RoadNode
  edges : List RoadEdge

/-- `graph.nodes[i]` coordinate lookup with `attrs.get("x", 0.0)` defaults. -/
def roadNodeXY (graph : RoadGraph) (i : ℤ) : ℚ × ℚ :=
  match graph.nodes.find? (fun n => n.id = i) with
  | some n => (n.x, n.y)
  | none => (0, 0)

/-- The per-edge hazard computation inside `add_edge_hazard_scores`
(routing_engine.py lines 84-108), given the midpoint elevation and
river-distance collaborators. -/
def edge_hazard (elevAt : ℚ → ℚ → ℚ) (riverKmAt : ℚ → ℚ → ℚ)
    (rainfall_next_3h upstream_risk_norm : ℚ)
    (midpoint_lat midpoint_lng : ℚ) : ℚ :=
  let hazard : ℚ := 0
  let elevation := elevAt midpoint_lat midpoint_lng
  let hazard := if elevation < 20 then hazard + 2 else hazard
  let distance_to_river_km := riverKmAt midpoint_lat midpoint_lng
  let hazard :=
    if distance_to_river_km ≤ (25/100) then
      hazard + 2 + (upstream_risk_norm / 100) * 4
    else if distance_to_river_km ≤ (75/100) then
      hazard + (upstream_risk_norm / 100) * 2
    else hazard
  let hazard := if rainfall_next_3h > 30 then hazard + 1 else hazard
  clamp hazard 0 100

/-- `add_edge_hazard_scores` from routing_engine.py: fill in
`hazard_score` for every edge that does not already carry one. -/
def add_edge_hazard_scores (elevAt : ℚ → ℚ → ℚ) (riverKmAt : ℚ → ℚ → ℚ)
    (graph : RoadGraph) (rainfall_next_3h upstream_risk_norm : ℚ) : RoadGraph :=
  { graph with
    edges := graph.edges.map (fun e =>
      if e.hazard_score.isSome then e
      else
        let uxy := roadNodeXY graph e.edgeSrc
        let vxy := roadNodeXY graph e.edgeDst
        let midpoint_lng := (uxy.1 + vxy.1) / 2
        let midpoint_lat := (uxy.2 + vxy.2) / 2
        { e with hazard_score := some (edge_hazard elevAt riverKmAt
            rainfall_next_3h upstream_risk_norm midpoint_lat midpoint_lng) }) }

/-- `edge_cost` from `compute_safe_route` (routing_engine.py lines 151-154):
`float(data.get("length", 1.0)) + hazard * safety_weight`. -/
def edge_cost (safety_weight : ℚ) (data : RoadEdge) : ℚ :=
  (data.length.getD 1) + (data.hazard_score.getD 0) * safety_weight

/-- Neighbors of a node, traversing edges in both directions (the path
searches run on undirected views of the graph). -/
def roadNeighbors (graph : RoadGraph) (i : ℤ) : List ℤ :=
  graph.edges.foldr (fun e acc =>
    if e.edgeSrc = i then e.edgeDst :: acc
    else if e.edgeDst = i then e.edgeSrc :: acc
    else acc) []

/-- Fuel-bounded breadth-first search returning some path (as a node list)
from the frontier to `target`.  Each frontier entry is a reversed path. -/
def bfs_paths (graph : RoadGraph) (target : ℤ) :
    ℕ → List (List ℤ) → List ℤ → Option (List ℤ)
  | 0, _, _ => none
  | _ + 1, [], _ => none
  | fuel + 1, p :: rest, visited =>
      match p with
      | [] => bfs_paths graph target fuel rest visited
      | cur :: _ =>
          if cur = target then some p.reverse
          else
            let nexts := (roadNeighbors graph cur).filter
              (fun n => ¬ visited.contains n)
            bfs_paths graph target fuel (rest ++ (nexts.map (fun n => n :: p)))
              (visited ++ nexts)

/-- `nx.shortest_path(graph, source, target, weight=edge_cost)`, modelled at
the level the theorems need: it yields some path exactly when one exists and
raises `NetworkXNoPath` (here: `none`) otherwise.  (Cost-minimality of the
returned path is not used by any claim below.) -/
def shortest_path_model (graph : RoadGraph) (source target : ℤ) :
    Option (List ℤ) :=
  if source = target then some [source]
  else bfs_paths graph target (graph.nodes.length + 2 * graph.edges.length + 2)
    [[source]] [source]

/-- The dictionary returned by `compute_safe_route`. -/
structure RoutePlan where
  route : List (ℚ × ℚ)
  total_distance : ℚ
  hazard_exposure : ℚ
  origin_node : ℤ
  destination_node : ℤ

/-- `graph.get_edge_data(u, v)` on the undirected view: all parallel edges
between `u` and `v`. -/
def parallelEdges (graph : RoadGraph) (u v : ℤ) : List RoadEdge :=
  graph.edges.filter (fun e =>
    (e.edgeSrc = u ∧ e.edgeDst = v) ∨ (e.edgeSrc = v ∧ e.edgeDst = u))

/-- `sorted(edge_attrs.values(), key=edge_cost)[0]`: the first
minimum-cost parallel edge (stable sort keeps the earliest on ties). -/
def cheapestParallelEdge (safety_weight : ℚ) (candidates : List RoadEdge) :
    Option RoadEdge :=
  match candidates with
  | [] => none
  | e :: rest => some (rest.foldl (fun best c =>
      if edge_cost safety_weight c < edge_cost safety_weight best then c
      else best) e)

/-- The result-accumulation tail of `compute_safe_route` (lines 179-211):
waypoints from node coordinates, and per-hop length/hazard taken from the
lowest-cost parallel edge. -/
def build_route_plan (route_graph : RoadGraph) (safety_weight : ℚ)
    (path : List ℤ) (origin_node dest_node : ℤ) : RoutePlan :=
  let route := path.map (fun node_id =>
    let xy := roadNodeXY route_graph node_id
    (xy.2, xy.1))
  let hops := path.zip path.tail
  let totals := hops.foldl (fun acc uv =>
    match cheapestParallelEdge safety_weight (parallelEdges route_graph uv.1 uv.2) with
    | some attrs => (acc.1 + attrs.length.getD 0, acc.2 + attrs.hazard_score.getD 0)
    | none => acc) ((0 : ℚ), (0 : ℚ))
  { route := route
    total_distance := roundTo 3 totals.1
    hazard_exposure := roundTo 3 totals.2
    origin_node := origin_node
    destination_node := dest_node }

/-- The search phase of `compute_safe_route` (routing_engine.py lines
145-211), starting from the already-extracted local subgraph and the
origin-sampled hazard context (`rainfall_sample`,
`upstream_rain_index_norm`): score the local subgraph, search it, and on
`NetworkXNoPath` retry once on the full (undirected) graph with hazard
scores recomputed there; a second failure propagates the no-path error. -/
def compute_safe_route_search (elevAt : ℚ → ℚ → ℚ) (riverKmAt : ℚ → ℚ → ℚ)
    (graph local_graph : RoadGraph) (rainfall_sample upstream_risk_norm : ℚ)
    (safety_weight : ℚ) (origin_node dest_node : ℤ) :
    Except PyError RoutePlan :=
  let local_scored := add_edge_hazard_scores elevAt riverKmAt local_graph
    rainfall_sample upstream_risk_norm
  match shortest_path_model local_scored origin_node dest_node with
  | some path => .ok (build_route_plan local_scored safety_weight path origin_node dest_node)
  | none =>
      let full_scored := add_edge_hazard_scores elevAt riverKmAt graph
        rainfall_sample upstream_risk_norm
      match shortest_path_model full_scored origin_node dest_node with
      | some path => .ok (build_route_plan full_scored safety_weight path origin_node dest_node)
      | none => .error .noPath

/-- `load_graph` / `_load_negros_graph` from routing_engine.py:
`lru_cache(maxsize=1)` memoization of the graphml load, which raises
`FileNotFoundError` when the data file is absent.  `memo` is the cache cell,
threaded explicitly. -/
def load_graph_memoized (file_present : Bool) (file_graph : RoadGraph)
    (memo : Option RoadGraph) : Except PyError (RoadGraph × Option RoadGraph) :=
  match memo with
  | some g => .ok (g, some g)
  | none =>
      if file_present then .ok (file_graph, some file_graph)
      else .error .fileNotFound

/-! ## EvacuationLookup (core/services.py) -/

/-- A persisted evacuation-center record. -/
structure EvacCenter where
  name : String
  latitude : ℚ
  longitude : ℚ
  capacity : ℤ

/-- One candidate dict built by `nearest_evacuation_centers`. -/
structure CenterHit where
  name : String
  latitude : ℚ
  longitude : ℚ
  capacity : ℤ
  distance_km : ℚ

/-- The candidate list of `nearest_evacuation_centers`: distances rounded to
3 decimals, then stably sorted ascending (`candidates.sort(key=distance)`). -/
def evac_candidates (hv : ℚ → ℚ → ℚ → ℚ → ℚ) (centers : List EvacCenter)
    (lat lng : ℚ) : List CenterHit :=
  (centers.map (fun center =>
    { name := center.name
      latitude := center.latitude
      longitude := center.longitude
      capacity := center.capacity
      distance_km := roundTo 3 (hv lat lng center.latitude center.longitude)
      : CenterHit })).mergeSort (fun a b => a.distance_km ≤ b.distance_km)

/-- The expanding-radius `while` loop of `nearest_evacuation_centers`,
fuel-bounded (the Python loop runs `search_radius = step, 2·step, …` until it
exceeds `max_radius`). -/
def evac_radius_loop (candidates : List CenterHit) (limit : Option ℕ)
    (max_radius_km radius_step_km : ℚ) :
    ℕ → ℚ → List CenterHit
  | 0, _ => []
  | fuel + 1, search_radius =>
      if search_radius ≤ max_radius_km then
        let options := candidates.filter (fun c => c.distance_km ≤ search_radius)
        if options.isEmpty then
          evac_radius_loop candidates limit max_radius_km radius_step_km fuel
            (search_radius + radius_step_km)
        else
          match limit with
          | none => options
          | some l => options.take l
      else []

/-- Fuel sufficient for the loop: one iteration per multiple of the step up
to the maximum radius, plus the final exit check
(`-ratFloor (-q)` is the ceiling of `q`). -/
def evac_loop_fuel (max_radius_km radius_step_km : ℚ) : ℕ :=
  (-(ratFloor (-(max_radius_km / radius_step_km)))).toNat + 1

/-- `nearest_evacuation_centers` from core/services.py. -/
def nearest_evacuation_centers (hv : ℚ → ℚ → ℚ → ℚ → ℚ)
    (centers : List EvacCenter) (lat lng : ℚ) (limit : Option ℕ)
    (max_radius_km radius_step_km : ℚ) : List CenterHit :=
  let candidates := evac_candidates hv centers lat lng
  if candidates.isEmpty then []
  else evac_radius_loop candidates limit max_radius_km radius_step_km
    (evac_loop_fuel max_radius_km radius_step_km) radius_step_km

/-! ## Shared auxiliary lemmas -/

theorem clamp_nonneg_le_100 (q : ℚ) :
    0 ≤ clamp q 0 100 ∧ clamp q 0 100 ≤ 100 := by
  constructor <;> norm_num [clamp, le_max_iff, max_le_iff, min_le_iff]

theorem pyRound_clamp_bounds (q : ℚ) :
    0 ≤ pyRound (clamp q 0 100) ∧ pyRound (clamp q 0 100) ≤ 100 := by
  obtain ⟨h0, h100⟩ := clamp_nonneg_le_100 q
  have hle := pyRound_le (clamp q 0 100)
  have hge := le_pyRound (clamp q 0 100)
  constructor
  · have : (-1 : ℚ) < (pyRound (clamp q 0 100) : ℚ) := by linarith
    have : (-1 : ℤ) < pyRound (clamp q 0 100) := by exact_mod_cast this
    omega
  · have : (pyRound (clamp q 0 100) : ℚ) < 101 := by linarith
    have : pyRound (clamp q 0 100) < (101 : ℤ) := by exact_mod_cast this
    omega

/-! ## Claim theorems -/

/-- C4: `classify_risk` is monotonic in its score argument and
threshold-exact with inclusive thresholds: every score ≥ 65 maps to HIGH,
every score in [35, 64] to MEDIUM, every score < 35 to LOW; in particular
64 ↦ MEDIUM, 65 ↦ HIGH, 34 ↦ LOW and 35 ↦ MEDIUM. -/
theorem classify_risk_thresholds :
    (∀ s t : ℤ, s ≤ t →
      riskLevelRank (classify_risk s) ≤ riskLevelRank (classify_risk t)) ∧
    (∀ s : ℤ, 65 ≤ s → classify_risk s = "HIGH") ∧
    (∀ s : ℤ, 35 ≤ s → s ≤ 64 → classify_risk s = "MEDIUM") ∧
    (∀ s : ℤ, s < 35 → classify_risk s = "LOW") ∧
    classify_risk 64 = "MEDIUM" ∧ classify_risk 65 = "HIGH" ∧
    classify_risk 34 = "LOW" ∧ classify_risk 35 = "MEDIUM" := by
  refine ⟨?_, ?_, ?_, ?_, by decide, by decide, by decide, by decide⟩
  · intro s t hst
    unfold classify_risk
    split_ifs <;> first | decide | omega
  · intro s h
    unfold classify_risk
    split_ifs <;> first | rfl | omega
  · intro s h1 h2
    unfold classify_risk
    split_ifs <;> first | rfl | omega
  · intro s h
    unfold classify_risk
    split_ifs <;> first | rfl | omega

/-- Witness for C4 at concrete scores. -/
theorem classify_risk_thresholds_witness :
    riskLevelRank (classify_risk 10) ≤ riskLevelRank (classify_risk 70) ∧
    classify_risk 65 = "HIGH" ∧ classify_risk 35 = "MEDIUM" ∧
    classify_risk 34 = "LOW" :=
  ⟨classify_risk_thresholds.1 10 70 (by decide),
   classify_risk_thresholds.2.1 65 (by decide),
   classify_risk_thresholds.2.2.1 35 (by decide) (by decide),
   classify_risk_thresholds.2.2.2.1 34 (by decide)⟩

/-- C1 (code bug): `estimate_flood_risk` never returns a `RiskAssessment`:
its call `compute_upstream_rain_index(lat, lng, horizon_hours=...,
weather_mode=..., reference_time=..., demo_rainfall=...,
demo_upstream_rainfall=...)` passes keyword arguments that the callee
`compute_upstream_rain_index(lat, lng, horizon_hours=6)` does not declare,
so every call raises `TypeError` — for every coordinate, hours value, and
behaviour of the (possibly fully degraded) external data sources. -/
theorem estimate_flood_risk_always_raises_typeerror :
    ∀ (rainSumAt : ℚ → ℚ → ℤ → ℚ) (elevationAt riverKmAt : ℚ → ℚ → ℚ)
      (histAt : ℚ → ℚ → ℚ × Bool) (upstreamAt : ℚ → ℚ → ℤ → UpstreamSummary)
      (lat lng : ℚ) (hours : ℤ),
      estimate_flood_risk rainSumAt elevationAt riverKmAt histAt upstreamAt
        lat lng hours = .error PyError.typeError := by
  intro rainSumAt elevationAt riverKmAt histAt upstreamAt lat lng hours
  have h : estimate_flood_risk_upstream_call_ok = false := by decide
  simp [estimate_flood_risk, h]

/-- C3: inside the scoring pipeline, the risk score is exactly the weighted
sum `0.35·rainfall + 0.35·upstream_norm + 0.15·river_factor +
0.10·elevation_factor + 0.05·historical_factor`, clamped to [0, 100] and
rounded to a nearest integer (Python `round`, half to even); the resulting
integer therefore lies in [0, 100]. -/
theorem risk_score_weighted_sum :
    ∀ (rainSumAt : ℚ → ℚ → ℤ → ℚ) (elevationAt riverKmAt : ℚ → ℚ → ℚ)
      (histAt : ℚ → ℚ → ℚ × Bool) (upstreamAt : ℚ → ℚ → ℤ → UpstreamSummary)
      (lat lng : ℚ) (hours : ℤ),
      (estimate_flood_risk_core rainSumAt elevationAt riverKmAt histAt
          upstreamAt lat lng hours).risk_score
        = pyRound (clamp (spec_weighted_score
            (rainSumAt lat lng (intClamp hours 1 6))
            ((upstreamAt lat lng (intClamp hours 1 6)).upstream_rain_index_norm)
            (river_proximity_factor (riverKmAt lat lng))
            (elevation_factor (elevationAt lat lng))
            ((histAt lat lng).1)) 0 100)
      ∧ 0 ≤ (estimate_flood_risk_core rainSumAt elevationAt riverKmAt histAt
          upstreamAt lat lng hours).risk_score
      ∧ (estimate_flood_risk_core rainSumAt elevationAt riverKmAt histAt
          upstreamAt lat lng hours).risk_score ≤ 100
      ∧ ∀ m : ℤ,
          |clamp (spec_weighted_score
              (rainSumAt lat lng (intClamp hours 1 6))
              ((upstreamAt lat lng (intClamp hours 1 6)).upstream_rain_index_norm)
              (river_proximity_factor (riverKmAt lat lng))
              (elevation_factor (elevationAt lat lng))
              ((histAt lat lng).1)) 0 100
            - ((estimate_flood_risk_core rainSumAt elevationAt riverKmAt histAt
                upstreamAt lat lng hours).risk_score : ℚ)|
          ≤ |clamp (spec_weighted_score
              (rainSumAt lat lng (intClamp hours 1 6))
              ((upstreamAt lat lng (intClamp hours 1 6)).upstream_rain_index_norm)
              (river_proximity_factor (riverKmAt lat lng))
              (elevation_factor (elevationAt lat lng))
              ((histAt lat lng).1)) 0 100 - (m : ℚ)| := by
  intro rainSumAt elevationAt riverKmAt histAt upstreamAt lat lng hours
  have hscore :
      (estimate_flood_risk_core rainSumAt elevationAt riverKmAt histAt
          upstreamAt lat lng hours).risk_score
        = pyRound (clamp (spec_weighted_score
            (rainSumAt lat lng (intClamp hours 1 6))
            ((upstreamAt lat lng (intClamp hours 1 6)).upstream_rain_index_norm)
            (river_proximity_factor (riverKmAt lat lng))
            (elevation_factor (elevationAt lat lng))
            ((histAt lat lng).1)) 0 100) := by
    simp only [estimate_flood_risk_core]
    congr 1
    unfold spec_weighted_score
    unfold clamp
    congr 1
    congr 1
    ring
  refine ⟨hscore, ?_, ?_, ?_⟩
  · rw [hscore]; exact (pyRound_clamp_bounds _).1
  · rw [hscore]; exact (pyRound_clamp_bounds _).2
  · intro m
    rw [hscore]
    exact pyRound_nearest _ m

/-- C7: the per-edge hazard score is exactly the clamped sum of the
elevation term (+2 below 20 m), the river-proximity term (+2 plus up to 4
scaled by the upstream index within 0.25 km, up to 2 scaled by the upstream
index within 0.75 km) and the rainfall term (+1 above 30 mm); the path
search cost of an edge is `length + hazard · safety_weight`, which reduces
to the pure length at `safety_weight = 0`. -/
theorem edge_hazard_and_cost_formula :
    ∀ (elevAt riverKmAt : ℚ → ℚ → ℚ) (rain up mlat mlng w : ℚ) (e : RoadEdge),
      edge_hazard elevAt riverKmAt rain up mlat mlng
        = clamp ((if elevAt mlat mlng < 20 then (2 : ℚ) else 0)
            + (if riverKmAt mlat mlng ≤ (25/100) then 2 + up / 100 * 4
               else if riverKmAt mlat mlng ≤ (75/100) then up / 100 * 2 else 0)
            + (if rain > 30 then (1 : ℚ) else 0)) 0 100
      ∧ edge_cost w e = e.length.getD 1 + e.hazard_score.getD 0 * w
      ∧ edge_cost 0 e = e.length.getD 1 := by
  intro elevAt riverKmAt rain up mlat mlng w e
  refine ⟨?_, rfl, by simp [edge_cost]⟩
  unfold edge_hazard
  dsimp only
  split_ifs <;> ring_nf

/-- C9: on a missing graph (`None`), an empty graph, or when no nearest node
is found, `compute_upstream_rain_index` returns the zero-valued summary —
index 0, normalized index 0, no dominant points, no expected peak — and (as
a total function) never raises. -/
theorem upstream_zero_on_missing_graph :
    ∀ (hv : ℚ → ℚ → ℚ → ℚ → ℚ) (rainSum : ℚ → ℚ → ℤ → ℚ) (expf : ℚ → ℚ)
      (lat lng : ℚ) (h : ℤ),
      (compute_upstream_rain_index hv rainSum expf none lat lng h
        = zeroUpstreamSummary (intClamp h 1 6)) ∧
      (∀ g : RiverGraph, g.nodes = [] →
        compute_upstream_rain_index hv rainSum expf (some g) lat lng h
          = zeroUpstreamSummary (intClamp h 1 6)) ∧
      (∀ g : RiverGraph, nearest_river_node_id hv g lat lng = none →
        compute_upstream_rain_index hv rainSum expf (some g) lat lng h
          = zeroUpstreamSummary (intClamp h 1 6)) ∧
      ((zeroUpstreamSummary (intClamp h 1 6)).upstream_rain_index = 0 ∧
       (zeroUpstreamSummary (intClamp h 1 6)).upstream_rain_index_norm = 0 ∧
       (zeroUpstreamSummary (intClamp h 1 6)).dominant_upstream_points = [] ∧
       (zeroUpstreamSummary (intClamp h 1 6)).expected_peak_in_hours = none) := by
  intro hv rainSum expf lat lng h
  refine ⟨rfl, ?_, ?_, by norm_num [zeroUpstreamSummary],
    by norm_num [zeroUpstreamSummary], rfl, rfl⟩
  · intro g hg
    simp [compute_upstream_rain_index, hg]
  · intro g hnearest
    by_cases hlen : g.nodes.length = 0
    · simp [compute_upstream_rain_index, hlen]
    · simp [compute_upstream_rain_index, hlen, hnearest]

/-- Witness for C9: the zero summary at a concrete empty graph and at a
graph whose single node lacks coordinates (no nearest node). -/
theorem upstream_zero_on_missing_graph_witness :
    compute_upstream_rain_index (fun _ _ _ _ => 0) (fun _ _ _ => 0)
        (fun _ => 1) (some { nodes := [], edges := [] }) 1 2 3
      = zeroUpstreamSummary (intClamp 3 1 6) ∧
    compute_upstream_rain_index (fun _ _ _ _ => 0) (fun _ _ _ => 0)
        (fun _ => 1)
        (some { nodes := [{ id := "a", lat := none, lng := none }], edges := [] }) 1 2 3
      = zeroUpstreamSummary (intClamp 3 1 6) :=
  ⟨(upstream_zero_on_missing_graph (fun _ _ _ _ => 0) (fun _ _ _ => 0)
      (fun _ => 1) 1 2 3).2.1 { nodes := [], edges := [] } rfl,
   (upstream_zero_on_missing_graph (fun _ _ _ _ => 0) (fun _ _ _ => 0)
      (fun _ => 1) 1 2 3).2.2.1
      { nodes := [{ id := "a", lat := none, lng := none }], edges := [] } rfl⟩

theorem length_demoPad (p : List ℚ) (s : ℕ) : (demoPad p s).length = s := by
  simp [demoPad]
  omega

theorem length_fallback_hourly_rain (pyHash : FKey → ℤ) (lat lng : ℚ)
    (hours : ℤ) (ref : Option ℤ) :
    (fallback_hourly_rain pyHash lat lng hours ref).length
      = (max 1 (min 6 hours)).toNat := by
  have h : ∀ (f : ℕ → ℚ) (n : ℕ), ((List.range n).map f).length = n := by
    intro f n
    rw [List.length_map, List.length_range]
  unfold fallback_hourly_rain
  exact h _ _

theorem hourly_rain_network_ok_length (pyHash : FKey → ℤ) (ak : Bool)
    (api : ApiResult) (lat lng : ℚ) (safe_hours : ℕ) (ref : Option ℤ)
    (key : HKey) (cache : Cache) (now : ℚ) (vs : List ℚ) (cache' : Cache)
    (hs1 : 1 ≤ safe_hours) (hs6 : safe_hours ≤ 6)
    (h : hourly_rain_network pyHash ak api lat lng safe_hours ref key cache now
          = .ok (vs, cache')) :
    vs.length = safe_hours := by
  have hfb : (fallback_hourly_rain pyHash lat lng (safe_hours : ℤ) ref).length
      = safe_hours := by
    rw [length_fallback_hourly_rain]
    omega
  unfold hourly_rain_network at h
  split at h
  · simp only [Except.ok.injEq, Prod.mk.injEq] at h
    rw [← h.1]
    exact hfb
  · split at h
    · exact absurd h (by simp)
    · simp only [Except.ok.injEq, Prod.mk.injEq] at h
      rw [← h.1]
      exact hfb
    · simp only [Except.ok.injEq, Prod.mk.injEq] at h
      rw [← h.1]
      rename_i recs
      by_cases hempty : recs.take safe_hours = []
      · simp only [hempty, if_pos rfl]
        simp [hfb]
      · simp only [if_neg hempty]
        have hlen : (recs.take safe_hours).length ≤ safe_hours := by
          simp [List.length_take]
        simp

theorem get_hourly_rain_demo_ok_length (lat lng : ℚ) (safe_hours : ℕ)
    (demo : Option (List ℚ)) (cache : Cache) (now : ℚ) (vs : List ℚ)
    (cache' : Cache)
    (h : get_hourly_rain_demo lat lng safe_hours demo cache now = .ok (vs, cache')) :
    vs.length = safe_hours := by
  unfold get_hourly_rain_demo at h
  split at h
  · exact absurd h (by simp)
  · dsimp only at h
    split at h
    · split at h
      · simp only [Except.ok.injEq, Prod.mk.injEq] at h
        rw [← h.1]
        rename_i hcond
        simp [List.length_take]
        omega
      · simp only [Except.ok.injEq, Prod.mk.injEq] at h
        rw [← h.1]
        exact length_demoPad _ _
    · simp only [Except.ok.injEq, Prod.mk.injEq] at h
      rw [← h.1]
      exact length_demoPad _ _

theorem get_hourly_rain_nondemo_ok_length (pyHash : FKey → ℤ) (ak : Bool)
    (api : ApiResult) (lat lng : ℚ) (safe_hours : ℕ) (is_historical : Bool)
    (ref : Option ℤ) (cache : Cache) (now : ℚ) (vs : List ℚ) (cache' : Cache)
    (hs1 : 1 ≤ safe_hours) (hs6 : safe_hours ≤ 6)
    (h : get_hourly_rain_nondemo pyHash ak api lat lng safe_hours is_historical
          ref cache now = .ok (vs, cache')) :
    vs.length = safe_hours := by
  unfold get_hourly_rain_nondemo at h
  split at h
  · exact absurd h (by simp)
  · dsimp only at h
    split at h
    · split at h
      · simp only [Except.ok.injEq, Prod.mk.injEq] at h
        rw [← h.1]
        rename_i hcond
        simp [List.length_take]
        omega
      · exact hourly_rain_network_ok_length _ _ _ _ _ _ _ _ _ _ _ _ hs1 hs6 h
    · exact hourly_rain_network_ok_length _ _ _ _ _ _ _ _ _ _ _ _ hs1 hs6 h

/-- C5: every sequence `get_hourly_rain` returns has length
`clamp(hours, 1, 6)` (the source's `max(1, min(6, int(hours)))`), with
demo-mode values truncated or zero-padded to that length; in particular demo
mode with `demo_values=[10,20]` and `hours=4` yields exactly
`[10.0, 20.0, 0.0, 0.0]`. -/
theorem hourly_rain_length_and_demo_padding :
    (∀ (pyHash : FKey → ℤ) (ak : Bool) (api : ApiResult) (lat lng : ℚ)
       (hours : ℤ) (weather_mode : String) (ref : Option ℤ)
       (demo : Option (List ℚ)) (cache : Cache) (now : ℚ) (vs : List ℚ)
       (cache' : Cache),
       get_hourly_rain pyHash ak api lat lng hours weather_mode ref demo
           cache now = .ok (vs, cache') →
       vs.length = (max 1 (min 6 hours)).toNat) ∧
    (∀ (pyHash : FKey → ℤ) (ak : Bool) (api : ApiResult) (lat lng : ℚ)
       (ref : Option ℤ) (now : ℚ),
       ∃ cache', get_hourly_rain pyHash ak api lat lng 4 "demo" ref
           (some [10, 20]) [] now = .ok ([10, 20, 0, 0], cache')) := by
  constructor
  · intro pyHash ak api lat lng hours weather_mode ref demo cache now vs cache' h
    have hs1 : 1 ≤ (max 1 (min 6 hours)).toNat := by omega
    have hs6 : (max 1 (min 6 hours)).toNat ≤ 6 := by omega
    unfold get_hourly_rain at h
    dsimp only at h
    split at h
    · exact get_hourly_rain_demo_ok_length _ _ _ _ _ _ _ _ h
    · exact get_hourly_rain_nondemo_ok_length _ _ _ _ _ _ _ _ _ _ _ _ hs1 hs6 h
  · intro pyHash ak api lat lng ref now
    refine ⟨aset [] (hourly_cache_key lat lng "demo" none [10, 20, 0, 0])
      (now, [10, 20, 0, 0]), ?_⟩
    have hmode : normalize_weather_mode "demo" = "demo" := by decide
    have hround10 : roundTo 1 10 = 10 := by decide
    have hround20 : roundTo 1 20 = 20 := by decide
    have hparse : parse_demo_rainfall_values (some [10, 20]) = .ok [10, 20] := by
      simp [parse_demo_rainfall_values, DEMO_HOURS_LIMIT, hround10, hround20]
    have hpad : demoPad [10, 20] (max 1 (min 6 (4 : ℤ))).toNat = [10, 20, 0, 0] := by
      norm_num [demoPad]
      rfl
    unfold get_hourly_rain
    dsimp only
    rw [hmode]
    simp only [if_pos rfl]
    unfold get_hourly_rain_demo
    rw [hparse]
    dsimp only
    rw [hpad]
    rfl


theorem pyRound_intCast (m : ℤ) : pyRound (m : ℚ) = m := by
  unfold pyRound
  simp only [ratFloor_eq]
  rw [Int.floor_intCast]
  norm_num

theorem roundTo_idem (n : ℕ) (q : ℚ) : roundTo n (roundTo n q) = roundTo n q := by
  unfold roundTo
  have hpow : ((10 : ℚ) ^ n) ≠ 0 := by positivity
  have h : ((pyRound (q * 10 ^ n) : ℚ) / 10 ^ n) * 10 ^ n
      = (pyRound (q * 10 ^ n) : ℚ) := by
    field_simp
  rw [h, pyRound_intCast]

theorem map_roundTo_fallback (pyHash : FKey → ℤ) (lat lng : ℚ) (hours : ℤ)
    (ref : Option ℤ) :
    (fallback_hourly_rain pyHash lat lng hours ref).map (roundTo 1)
      = fallback_hourly_rain pyHash lat lng hours ref := by
  unfold fallback_hourly_rain
  rw [List.map_map]
  congr 1
  funext i
  exact roundTo_idem 1 _

theorem alget_aset (cache : Cache) (k : HKey) (v : ℚ × List ℚ) :
    alget (aset cache k v) k = some v := by
  simp [alget, aset]

theorem take_fallback (pyHash : FKey → ℤ) (lat lng : ℚ) (safe_hours : ℕ)
    (ref : Option ℤ) (hs1 : 1 ≤ safe_hours) (hs6 : safe_hours ≤ 6) :
    (fallback_hourly_rain pyHash lat lng (safe_hours : ℤ) ref).take safe_hours
      = fallback_hourly_rain pyHash lat lng (safe_hours : ℤ) ref := by
  apply List.take_of_length_le
  rw [length_fallback_hourly_rain]
  omega

theorem fallback_length_eq (pyHash : FKey → ℤ) (lat lng : ℚ) (safe_hours : ℕ)
    (ref : Option ℤ) (hs1 : 1 ≤ safe_hours) (hs6 : safe_hours ≤ 6) :
    (fallback_hourly_rain pyHash lat lng (safe_hours : ℤ) ref).length = safe_hours := by
  rw [length_fallback_hourly_rain]
  omega

theorem nondemo_nokey_first_call (pyHash : FKey → ℤ) (api : ApiResult)
    (lat lng : ℚ) (safe_hours : ℕ) (is_historical : Bool) (ref : Option ℤ)
    (cache : Cache) (now : ℚ)
    (href : is_historical = true → ∃ e, ref = some e)
    (hmiss : alget cache (hourly_cache_key lat lng
        (if is_historical then "historical" else "live")
        (if is_historical then ref else none) []) = none) :
    get_hourly_rain_nondemo pyHash false api lat lng safe_hours is_historical
        ref cache now
      = .ok (fallback_hourly_rain pyHash lat lng (safe_hours : ℤ)
              (if is_historical then ref else none),
             aset cache (hourly_cache_key lat lng
               (if is_historical then "historical" else "live")
               (if is_historical then ref else none) [])
               (now, fallback_hourly_rain pyHash lat lng (safe_hours : ℤ)
                 (if is_historical then ref else none))) := by
  cases is_historical with
  | false =>
      simp only [Bool.false_eq_true, if_false] at hmiss ⊢
      simp only [get_hourly_rain_nondemo, Bool.false_eq_true, if_false]
      rw [hmiss]
      simp [hourly_rain_network]
  | true =>
      obtain ⟨e, he⟩ := href rfl
      subst he
      simp only [if_true] at hmiss ⊢
      simp only [get_hourly_rain_nondemo, if_true, parse_reference_time, Except.map]
      rw [hmiss]
      simp [hourly_rain_network]

theorem nondemo_nokey_second_call (pyHash : FKey → ℤ) (api : ApiResult)
    (lat lng : ℚ) (safe_hours : ℕ) (is_historical : Bool) (ref : Option ℤ)
    (cache : Cache) (now now' : ℚ)
    (hs1 : 1 ≤ safe_hours) (hs6 : safe_hours ≤ 6)
    (href : is_historical = true → ∃ e, ref = some e) :
    ∃ c2, get_hourly_rain_nondemo pyHash false api lat lng safe_hours
        is_historical ref
        (aset cache (hourly_cache_key lat lng
          (if is_historical then "historical" else "live")
          (if is_historical then ref else none) [])
          (now, fallback_hourly_rain pyHash lat lng (safe_hours : ℤ)
            (if is_historical then ref else none))) now'
      = .ok (fallback_hourly_rain pyHash lat lng (safe_hours : ℤ)
          (if is_historical then ref else none), c2) := by
  have htake := take_fallback pyHash lat lng safe_hours
    (if is_historical then ref else none) hs1 hs6
  have hmap := map_roundTo_fallback pyHash lat lng (safe_hours : ℤ)
    (if is_historical then ref else none)
  have hhit := alget_aset cache (hourly_cache_key lat lng
    (if is_historical then "historical" else "live")
    (if is_historical then ref else none) [])
    (now, fallback_hourly_rain pyHash lat lng (safe_hours : ℤ)
      (if is_historical then ref else none))
  cases is_historical with
  | false =>
      simp only [Bool.false_eq_true, if_false] at htake hmap hhit ⊢
      simp only [get_hourly_rain_nondemo, Bool.false_eq_true, if_false]
      rw [hhit]
      dsimp only
      by_cases hfresh : now' - now < WEATHER_CACHE_SECONDS ∧ safe_hours ≤
        (fallback_hourly_rain pyHash lat lng (safe_hours : ℤ) none).length
      · rw [if_pos hfresh, htake, hmap]
        exact ⟨_, rfl⟩
      · rw [if_neg hfresh]
        simp [hourly_rain_network]
  | true =>
      obtain ⟨e, he⟩ := href rfl
      subst he
      simp only [if_true] at htake hmap hhit ⊢
      simp only [get_hourly_rain_nondemo, if_true, parse_reference_time, Except.map]
      rw [hhit]
      dsimp only
      by_cases hfresh : now' - now < WEATHER_CACHE_SECONDS ∧ safe_hours ≤
        (fallback_hourly_rain pyHash lat lng (safe_hours : ℤ) (some e)).length
      · rw [if_pos hfresh, htake, hmap]
        exact ⟨_, rfl⟩
      · rw [if_neg hfresh]
        simp [hourly_rain_network]

/-- C6: with no live API key configured, two calls to `get_hourly_rain` with
identical coordinate, (non-demo) mode, hours, and reference time return
identical rainfall sequences: both return the deterministic fallback series,
which is a pure function of those inputs. -/
theorem hourly_rain_fallback_deterministic :
    ∀ (pyHash : FKey → ℤ) (api api' : ApiResult) (lat lng : ℚ) (hours : ℤ)
      (weather_mode : String) (ref : Option ℤ) (demo demo' : Option (List ℚ))
      (cache : Cache) (now now' : ℚ),
      normalize_weather_mode weather_mode ≠ "demo" →
      (normalize_weather_mode weather_mode = "historical" → ∃ e, ref = some e) →
      alget cache (hourly_cache_key lat lng
          (if normalize_weather_mode weather_mode = "historical" then "historical" else "live")
          (if normalize_weather_mode weather_mode = "historical" then ref else none) [])
        = none →
      ∃ (vs : List ℚ) (c1 c2 : Cache),
        get_hourly_rain pyHash false api lat lng hours weather_mode ref demo
            cache now = .ok (vs, c1) ∧
        get_hourly_rain pyHash false api' lat lng hours weather_mode ref demo'
            c1 now' = .ok (vs, c2) ∧
        vs = fallback_hourly_rain pyHash lat lng
          (((max 1 (min 6 hours)).toNat : ℕ) : ℤ)
          (if normalize_weather_mode weather_mode = "historical" then ref else none) := by
  intro pyHash api api' lat lng hours weather_mode ref demo demo' cache now now'
    hdemo hhist hmiss
  have hs1 : 1 ≤ (max 1 (min 6 hours)).toNat := by omega
  have hs6 : (max 1 (min 6 hours)).toNat ≤ 6 := by omega
  have hbif : ∀ {β : Type} (x y : β),
      (if (decide (normalize_weather_mode weather_mode = "historical")) = true
        then x else y)
        = (if normalize_weather_mode weather_mode = "historical" then x else y) := by
    intro β x y
    by_cases h : normalize_weather_mode weather_mode = "historical" <;> simp [h]
  have href' : (decide (normalize_weather_mode weather_mode = "historical")) = true
      → ∃ e, ref = some e := by
    intro hb
    exact hhist (by simpa using hb)
  have hmiss' : alget cache (hourly_cache_key lat lng
      (if (decide (normalize_weather_mode weather_mode = "historical")) = true
        then "historical" else "live")
      (if (decide (normalize_weather_mode weather_mode = "historical")) = true
        then ref else none) []) = none := by
    rw [hbif, hbif]
    exact hmiss
  have h1 := nondemo_nokey_first_call pyHash api lat lng
    (max 1 (min 6 hours)).toNat
    (decide (normalize_weather_mode weather_mode = "historical")) ref cache now
    href' hmiss'
  have h2 := nondemo_nokey_second_call pyHash api' lat lng
    (max 1 (min 6 hours)).toNat
    (decide (normalize_weather_mode weather_mode = "historical")) ref cache now
    now' hs1 hs6 href'
  obtain ⟨c2, h2⟩ := h2
  simp only [hbif] at h1 h2
  refine ⟨fallback_hourly_rain pyHash lat lng (((max 1 (min 6 hours)).toNat : ℕ) : ℤ)
      (if normalize_weather_mode weather_mode = "historical" then ref else none),
    aset cache (hourly_cache_key lat lng
        (if normalize_weather_mode weather_mode = "historical" then "historical" else "live")
        (if normalize_weather_mode weather_mode = "historical" then ref else none) [])
      (now, fallback_hourly_rain pyHash lat lng (((max 1 (min 6 hours)).toNat : ℕ) : ℤ)
        (if normalize_weather_mode weather_mode = "historical" then ref else none)),
    c2, ?_, ?_, rfl⟩
  · unfold get_hourly_rain
    dsimp only
    rw [if_neg hdemo]
    exact h1
  · unfold get_hourly_rain
    dsimp only
    rw [if_neg hdemo]
    exact h2

/-- Witness for C6: two concrete keyless live-mode calls from an empty cache
agree, both returning the deterministic fallback series. -/
theorem hourly_rain_fallback_deterministic_witness :
    ∃ (vs : List ℚ) (c1 c2 : Cache),
      get_hourly_rain (fun _ => 0) false ApiResult.fail 10 123 3 "live" none
          none [] 0 = .ok (vs, c1) ∧
      get_hourly_rain (fun _ => 0) false ApiResult.fail 10 123 3 "live" none
          none c1 100 = .ok (vs, c2) ∧
      vs = fallback_hourly_rain (fun _ => 0) 10 123
        (((max 1 (min 6 (3 : ℤ))).toNat : ℕ) : ℤ)
        (if normalize_weather_mode "live" = "historical" then none else none) :=
  hourly_rain_fallback_deterministic (fun _ => 0) ApiResult.fail ApiResult.fail
    10 123 3 "live" none none none [] 0 100
    (by decide) (fun h => absurd h (by decide)) rfl

/-- Witness for C5: a concrete demo-mode call returns a 4-element series. -/
theorem hourly_rain_length_and_demo_padding_witness :
    ∃ (vs : List ℚ) (cache' : Cache),
      get_hourly_rain (fun _ => 0) false ApiResult.fail 1 2 4 "demo" none
          (some [10, 20]) [] 0 = .ok (vs, cache') ∧
      vs.length = (max 1 (min 6 (4 : ℤ))).toNat := by
  obtain ⟨cache', hc⟩ := hourly_rain_length_and_demo_padding.2 (fun _ => 0)
    false ApiResult.fail 1 2 none 0
  exact ⟨_, cache', hc,
    hourly_rain_length_and_demo_padding.1 _ _ _ _ _ _ _ _ _ _ _ _ _ hc⟩

/-- Latitude of node `node_id` of the river graph (the value
`river_graph.nodes[node_id]["lat"]` read by the aggregation loop). -/
def riverNodeLat (g : RiverGraph) (nid : String) : ℚ :=
  (((g.nodes.find? (fun n => n.id = nid)).bind RiverNode.lat).getD 0)

/-- Longitude of node `node_id` of the river graph. -/
def riverNodeLng (g : RiverGraph) (nid : String) : ℚ :=
  (((g.nodes.find? (fun n => n.id = nid)).bind RiverNode.lng).getD 0)

theorem upstream_accumulate_fst (g : RiverGraph) (rainSum : ℚ → ℚ → ℤ → ℚ)
    (expf : ℚ → ℚ) (horizon : ℤ) (l : List (String × ℚ))
    (hc : ∀ p ∈ l, (riverNodeAttrs g p.1).1.isSome ∧ (riverNodeAttrs g p.1).2.isSome) :
    (upstream_accumulate g rainSum expf horizon l).1
      = (l.map (fun p => rainSum (riverNodeLat g p.1) (riverNodeLng g p.1) horizon
          * expf (-p.2 / DECAY_DISTANCE_M))).sum := by
  have key : ∀ (l' : List (String × ℚ)) (acc : ℚ × List DominantPoint),
      (∀ p ∈ l', (riverNodeAttrs g p.1).1.isSome ∧ (riverNodeAttrs g p.1).2.isSome) →
      (l'.foldl (fun acc item =>
        match riverNodeAttrs g item.1 with
        | (some node_lat, some node_lng) =>
            let rain_total := rainSum node_lat node_lng horizon
            let distance := item.2
            let weight := expf (-distance / DECAY_DISTANCE_M)
            let weighted_signal := rain_total * weight
            (acc.1 + weighted_signal,
             acc.2 ++ [{ lat := node_lat
                         lng := node_lng
                         distance_m := roundTo 1 distance
                         rain_sum := rain_total
                         weighted_signal := roundTo 3 weighted_signal
                         node_id := item.1 }])
        | _ => acc) acc).1
        = acc.1 + (l'.map (fun p => rainSum (riverNodeLat g p.1) (riverNodeLng g p.1)
            horizon * expf (-p.2 / DECAY_DISTANCE_M))).sum := by
    intro l'
    induction l' with
    | nil => intro acc _; simp
    | cons p rest ih =>
        intro acc hc'
        obtain ⟨h1, h2⟩ := hc' p (List.mem_cons_self p rest)
        have hrest : ∀ q ∈ rest, (riverNodeAttrs g q.1).1.isSome
            ∧ (riverNodeAttrs g q.1).2.isSome :=
          fun q hq => hc' q (List.mem_cons_of_mem p hq)
        cases hfind : g.nodes.find? (fun n => n.id = p.1) with
        | none =>
            simp [riverNodeAttrs, hfind] at h1
        | some n =>
            cases hlat : n.lat with
            | none =>
                simp [riverNodeAttrs, hfind, hlat] at h1
            | some a =>
                cases hlng : n.lng with
                | none =>
                    simp [riverNodeAttrs, hfind, hlng] at h2
                | some b =>
                    have hattrs : riverNodeAttrs g p.1 = (some a, some b) := by
                      rw [riverNodeAttrs, hfind]
                      simp [hlat, hlng]
                    have hlatv : riverNodeLat g p.1 = a := by
                      rw [riverNodeLat, hfind]
                      simp [hlat]
                    have hlngv : riverNodeLng g p.1 = b := by
                      rw [riverNodeLng, hfind]
                      simp [hlng]
                    rw [List.foldl_cons]
                    simp only [hattrs]
                    rw [ih _ hrest]
                    simp only [List.map_cons, List.sum_cons, hlatv, hlngv]
                    ring
  unfold upstream_accumulate
  rw [key l (0, []) hc]
  simp

theorem mem_upstream_attrs (g : RiverGraph) (source : String) (cutoff : ℚ)
    (hcoords : ∀ n ∈ g.nodes, n.lat.isSome ∧ n.lng.isSome) :
    ∀ p ∈ upstream_path_lengths g source cutoff,
      (riverNodeAttrs g p.1).1.isSome ∧ (riverNodeAttrs g p.1).2.isSome := by
  intro p hp
  unfold upstream_path_lengths at hp
  rw [List.mem_filterMap] at hp
  obtain ⟨nid, hnid, hmap⟩ := hp
  rw [Option.map_eq_some'] at hmap
  obtain ⟨d, _, hpd⟩ := hmap
  have hp1 : p.1 = nid := by rw [← hpd]
  rw [List.mem_dedup, List.mem_map] at hnid
  obtain ⟨n, hn, hid⟩ := hnid
  rw [hp1, ← hid]
  rw [riverNodeAttrs]
  cases hfind : g.nodes.find? (fun m => m.id = n.id) with
  | none =>
      exfalso
      have := List.find?_eq_none.mp hfind n hn
      simp at this
  | some m =>
      have hm : m ∈ g.nodes := List.mem_of_find?_eq_some hfind
      exact ⟨(hcoords m hm).1, (hcoords m hm).2⟩

/-- C2: when a nearest river node exists (and every graph node carries
coordinates), the raw upstream index is the sum over every node reached by
the bounded reverse traversal of that node's hourly rainfall sum weighted by
`exp(-distance_m / 20000)` (rounded to 3 decimals for the returned field),
and the normalized index is that sum divided by the 200.0 scale constant,
scaled to 0-100 and clamped to [0, 100] (again rounded to 3 decimals). -/
theorem upstream_index_formula (hv : ℚ → ℚ → ℚ → ℚ → ℚ)
    (rainSum : ℚ → ℚ → ℤ → ℚ) (expf : ℚ → ℚ) (g : RiverGraph)
    (lat lng : ℚ) (h : ℤ) (source : String)
    (hcoords : ∀ n ∈ g.nodes, n.lat.isSome ∧ n.lng.isSome)
    (hnz : ¬ g.nodes.length = 0)
    (hsrc : nearest_river_node_id hv g lat lng = some source) :
    (compute_upstream_rain_index hv rainSum expf (some g) lat lng h).upstream_rain_index
      = roundTo 3 (((upstream_path_lengths g source
            (travel_distance_to_max (intClamp h 1 6))).map
          (fun p => rainSum (riverNodeLat g p.1) (riverNodeLng g p.1)
            (intClamp h 1 6) * expf (-p.2 / DECAY_DISTANCE_M))).sum)
    ∧ (compute_upstream_rain_index hv rainSum expf (some g) lat lng h).upstream_rain_index_norm
      = roundTo 3 (clamp ((((upstream_path_lengths g source
            (travel_distance_to_max (intClamp h 1 6))).map
          (fun p => rainSum (riverNodeLat g p.1) (riverNodeLng g p.1)
            (intClamp h 1 6) * expf (-p.2 / DECAY_DISTANCE_M))).sum / 200) * 100)
          0 100) := by
  have hacc := upstream_accumulate_fst g rainSum expf (intClamp h 1 6)
    (upstream_path_lengths g source (travel_distance_to_max (intClamp h 1 6)))
    (mem_upstream_attrs g source (travel_distance_to_max (intClamp h 1 6)) hcoords)
  unfold compute_upstream_rain_index
  dsimp only
  rw [if_neg hnz, hsrc]
  dsimp only
  rw [hacc]
  exact ⟨rfl, rfl⟩

/-- Concrete inputs for the C2 witness: a two-node river graph with one
downstream edge `b → a` of 100 m. -/
def wGraph : RiverGraph :=
  { nodes := [{ id := "a", lat := some 1, lng := some 2 },
              { id := "b", lat := some 3, lng := some 4 }]
    edges := [{ src := "b", dst := "a", length_m := 100 }] }

def wHv : ℚ → ℚ → ℚ → ℚ → ℚ := fun _ _ node_lat _ => node_lat

def wRain : ℚ → ℚ → ℤ → ℚ := fun _ _ _ => 10

def wExp : ℚ → ℚ := fun _ => 1

/-- Witness for C2 at the concrete graph: two reached nodes, each
contributing 10 mm at weight 1, give index 20 and normalized index 10. -/
theorem upstream_index_formula_witness :
    (compute_upstream_rain_index wHv wRain wExp (some wGraph) 0 0 3).upstream_rain_index
        = 20 ∧
    (compute_upstream_rain_index wHv wRain wExp (some wGraph) 0 0 3).upstream_rain_index_norm
        = 10 := by
  have h := upstream_index_formula wHv wRain wExp wGraph 0 0 3 "a"
    (by decide) (by decide) (by decide)
  refine ⟨?_, ?_⟩
  · rw [h.1]
    decide
  · rw [h.2]
    decide

/-- C8: when the path search over the (hazard-scored) local subgraph finds
no path, `compute_safe_route` retries exactly once on the full road graph
with hazard scores recomputed there; when even the full graph has no path,
the explicit no-route error propagates (no silent empty result); and the
memoized graph loader raises an explicit file-not-found error when the data
file is absent at first load, while later calls reuse the memoized graph
without reloading. -/
theorem safe_route_retry_and_errors :
    (∀ (elevAt riverKmAt : ℚ → ℚ → ℚ) (graph local_graph : RoadGraph)
       (rain up w : ℚ) (o d : ℤ),
       shortest_path_model (add_edge_hazard_scores elevAt riverKmAt local_graph
         rain up) o d = none →
       shortest_path_model (add_edge_hazard_scores elevAt riverKmAt graph
         rain up) o d = none →
       compute_safe_route_search elevAt riverKmAt graph local_graph rain up w o d
         = .error PyError.noPath) ∧
    (∀ (elevAt riverKmAt : ℚ → ℚ → ℚ) (graph local_graph : RoadGraph)
       (rain up w : ℚ) (o d : ℤ) (p : List ℤ),
       shortest_path_model (add_edge_hazard_scores elevAt riverKmAt local_graph
         rain up) o d = none →
       shortest_path_model (add_edge_hazard_scores elevAt riverKmAt graph
         rain up) o d = some p →
       compute_safe_route_search elevAt riverKmAt graph local_graph rain up w o d
         = .ok (build_route_plan (add_edge_hazard_scores elevAt riverKmAt graph
             rain up) w p o d)) ∧
    (∀ fg : RoadGraph,
       load_graph_memoized false fg none = .error PyError.fileNotFound) ∧
    (∀ (fp : Bool) (fg g : RoadGraph),
       load_graph_memoized fp fg (some g) = .ok (g, some g)) := by
  refine ⟨?_, ?_, fun fg => rfl, fun fp fg g => rfl⟩
  · intro elevAt riverKmAt graph local_graph rain up w o d h1 h2
    unfold compute_safe_route_search
    dsimp only
    rw [h1]
    dsimp only
    rw [h2]
  · intro elevAt riverKmAt graph local_graph rain up w o d p h1 h2
    unfold compute_safe_route_search
    dsimp only
    rw [h1]
    dsimp only
    rw [h2]

/-- Concrete graphs for the C8 witness: the local subgraph has no edge
between the two nodes, the full graph has one. -/
def wLocalRoadGraph : RoadGraph :=
  { nodes := [{ id := 1, x := 0, y := 0 }, { id := 2, x := 1, y := 1 }]
    edges := [] }

def wFullRoadGraph : RoadGraph :=
  { nodes := [{ id := 1, x := 0, y := 0 }, { id := 2, x := 1, y := 1 }]
    edges := [{ edgeSrc := 1, edgeDst := 2, length := some 5, hazard_score := none }] }

/-- Witness for C8: the local search fails, the retry on the full graph
succeeds; with the empty graph as both local and full graph the explicit
no-route error is returned; a missing file yields the explicit load error. -/
theorem safe_route_retry_and_errors_witness :
    compute_safe_route_search (fun _ _ => 30) (fun _ _ => 10) wFullRoadGraph
        wLocalRoadGraph 0 0 2 1 2
      = .ok (build_route_plan (add_edge_hazard_scores (fun _ _ => 30)
          (fun _ _ => 10) wFullRoadGraph 0 0) 2 [1, 2] 1 2) ∧
    compute_safe_route_search (fun _ _ => 30) (fun _ _ => 10) wLocalRoadGraph
        wLocalRoadGraph 0 0 2 1 2 = .error PyError.noPath ∧
    load_graph_memoized false wFullRoadGraph none = .error PyError.fileNotFound :=
  ⟨safe_route_retry_and_errors.2.1 (fun _ _ => 30) (fun _ _ => 10)
      wFullRoadGraph wLocalRoadGraph 0 0 2 1 2 [1, 2] (by decide) (by decide),
   safe_route_retry_and_errors.1 (fun _ _ => 30) (fun _ _ => 10)
      wLocalRoadGraph wLocalRoadGraph 0 0 2 1 2 (by decide) (by decide),
   safe_route_retry_and_errors.2.2.1 wFullRoadGraph⟩

theorem evac_candidates_sorted (hv : ℚ → ℚ → ℚ → ℚ → ℚ)
    (centers : List EvacCenter) (lat lng : ℚ) :
    (evac_candidates hv centers lat lng).Pairwise
      (fun a b => a.distance_km ≤ b.distance_km) := by
  unfold evac_candidates
  have h := @List.sorted_mergeSort CenterHit
    (fun a b : CenterHit => decide (a.distance_km ≤ b.distance_km))
    (fun a b c hab hbc => by
      simp only [decide_eq_true_eq] at hab hbc ⊢
      exact le_trans hab hbc)
    (fun a b => by
      simp only [Bool.or_eq_true, decide_eq_true_eq]
      exact le_total a.distance_km b.distance_km)
    (centers.map (fun center =>
      { name := center.name
        latitude := center.latitude
        longitude := center.longitude
        capacity := center.capacity
        distance_km := roundTo 3 (hv lat lng center.latitude center.longitude)
        : CenterHit }))
  exact h.imp (by intro a b hab; simpa using hab)

theorem evac_radius_loop_shape (candidates : List CenterHit) (l : ℕ)
    (max_radius_km radius_step_km : ℚ) :
    ∀ (fuel : ℕ) (r : ℚ),
      evac_radius_loop candidates (some l) max_radius_km radius_step_km fuel r = []
      ∨ ∃ r', evac_radius_loop candidates (some l) max_radius_km radius_step_km fuel r
          = (candidates.filter (fun c => c.distance_km ≤ r')).take l := by
  intro fuel
  induction fuel with
  | zero => intro r; exact Or.inl rfl
  | succ n ih =>
      intro r
      unfold evac_radius_loop
      by_cases hr : r ≤ max_radius_km
      · rw [if_pos hr]
        by_cases hempty : (candidates.filter (fun c => c.distance_km ≤ r)).isEmpty
        · rw [if_pos hempty]
          exact ih (r + radius_step_km)
        · rw [if_neg hempty]
          exact Or.inr ⟨r, rfl⟩
      · rw [if_neg hr]
        exact Or.inl rfl

theorem evac_radius_loop_all_far (candidates : List CenterHit) (l : ℕ)
    (hfar : ∀ c ∈ candidates, (200 : ℚ) < c.distance_km) :
    ∀ (fuel : ℕ) (r : ℚ),
      evac_radius_loop candidates (some l) 200 10 fuel r = [] := by
  intro fuel
  induction fuel with
  | zero => intro r; rfl
  | succ n ih =>
      intro r
      unfold evac_radius_loop
      by_cases hr : r ≤ 200
      · rw [if_pos hr]
        have hempty : (candidates.filter (fun c => c.distance_km ≤ r)).isEmpty := by
          rw [List.isEmpty_iff, List.filter_eq_nil_iff]
          intro c hc
          simp only [decide_eq_true_eq]
          push_neg
          exact lt_of_le_of_lt hr (hfar c hc)
        dsimp only
        rw [if_pos hempty]
        exact ih (r + 10)
      · rw [if_neg hr]

theorem evac_radius_loop_first_hit (candidates : List CenterHit) (l : ℕ) :
    ∀ (fuel k j : ℕ), 1 ≤ j → j ≤ k → k ≤ 20 → k - j < fuel →
      candidates.filter (fun c => c.distance_km ≤ (k : ℚ) * 10) ≠ [] →
      (∀ i : ℕ, j ≤ i → i < k →
        candidates.filter (fun c => c.distance_km ≤ (i : ℚ) * 10) = []) →
      evac_radius_loop candidates (some l) 200 10 fuel ((j : ℚ) * 10)
        = (candidates.filter (fun c => c.distance_km ≤ (k : ℚ) * 10)).take l := by
  intro fuel
  induction fuel with
  | zero =>
      intro k j _ _ _ hfuel _ _
      omega
  | succ n ih =>
      intro k j hj1 hjk hk20 hfuel hne hbefore
      have hr : ((j : ℚ) * 10) ≤ 200 := by
        have : (j : ℚ) ≤ 20 := by
          have : j ≤ 20 := le_trans hjk hk20
          exact_mod_cast this
        linarith
      unfold evac_radius_loop
      rw [if_pos hr]
      by_cases hjeq : j = k
      · subst hjeq
        have hne' : ¬ (candidates.filter
            (fun c => c.distance_km ≤ (j : ℚ) * 10)).isEmpty := by
          rw [List.isEmpty_iff]
          exact hne
        dsimp only
        rw [if_neg hne']
      · have hjlt : j < k := lt_of_le_of_ne hjk hjeq
        have hempty : (candidates.filter
            (fun c => c.distance_km ≤ (j : ℚ) * 10)).isEmpty := by
          rw [List.isEmpty_iff]
          exact hbefore j le_rfl hjlt
        dsimp only
        rw [if_pos hempty]
        have hstep : (j : ℚ) * 10 + 10 = ((j + 1 : ℕ) : ℚ) * 10 := by
          push_cast
          ring
        rw [hstep]
        exact ih k (j + 1) (by omega) (by omega) hk20 (by omega) hne
          (fun i hi1 hi2 => hbefore i (by omega) hi2)

/-- C10: `nearest_evacuation_centers` returns centers sorted by ascending
haversine distance, truncated to at most `limit` entries, and selects only
the centers within the smallest multiple of `radius_step_km` (10 km) that
contains at least one center; when every stored center is farther than
`max_radius_km` (200 km) it returns the empty list even though centers
exist. -/
theorem nearest_centers_sorted_radius :
    ∀ (hv : ℚ → ℚ → ℚ → ℚ → ℚ) (centers : List EvacCenter) (lat lng : ℚ)
      (l : ℕ),
      (nearest_evacuation_centers hv centers lat lng (some l) 200 10).Pairwise
        (fun a b => a.distance_km ≤ b.distance_km) ∧
      (nearest_evacuation_centers hv centers lat lng (some l) 200 10).length ≤ l ∧
      (∀ k : ℕ, 1 ≤ k → k ≤ 20 →
        (∃ c ∈ evac_candidates hv centers lat lng, c.distance_km ≤ (k : ℚ) * 10) →
        (∀ i : ℕ, 1 ≤ i → i < k →
          (evac_candidates hv centers lat lng).filter
            (fun c => c.distance_km ≤ (i : ℚ) * 10) = []) →
        nearest_evacuation_centers hv centers lat lng (some l) 200 10
          = ((evac_candidates hv centers lat lng).filter
              (fun c => c.distance_km ≤ (k : ℚ) * 10)).take l) ∧
      ((∀ c ∈ evac_candidates hv centers lat lng, (200 : ℚ) < c.distance_km) →
        nearest_evacuation_centers hv centers lat lng (some l) 200 10 = []) := by
  intro hv centers lat lng l
  have hsorted := evac_candidates_sorted hv centers lat lng
  have hshape := evac_radius_loop_shape (evac_candidates hv centers lat lng) l
    200 10 (evac_loop_fuel 200 10) 10
  refine ⟨?_, ?_, ?_, ?_⟩
  · unfold nearest_evacuation_centers
    by_cases hemp : (evac_candidates hv centers lat lng).isEmpty
    · rw [if_pos hemp]
      exact List.Pairwise.nil
    · rw [if_neg hemp]
      rcases hshape with h | ⟨r', h⟩
      · rw [h]
        exact List.Pairwise.nil
      · rw [h]
        exact List.Pairwise.sublist
          ((List.take_sublist _ _).trans (List.filter_sublist _)) hsorted
  · unfold nearest_evacuation_centers
    by_cases hemp : (evac_candidates hv centers lat lng).isEmpty
    · rw [if_pos hemp]
      simp
    · rw [if_neg hemp]
      rcases hshape with h | ⟨r', h⟩
      · rw [h]
        simp
      · rw [h]
        exact List.length_take_le _ _
  · intro k hk1 hk20 hex hbefore
    obtain ⟨c, hc, hcle⟩ := hex
    have hemp : ¬ (evac_candidates hv centers lat lng).isEmpty := by
      rw [List.isEmpty_iff]
      intro h
      rw [h] at hc
      exact absurd hc (List.not_mem_nil c)
    unfold nearest_evacuation_centers
    rw [if_neg hemp]
    have hfuel : evac_loop_fuel 200 10 = 21 := by decide
    have hne : (evac_candidates hv centers lat lng).filter
        (fun c => c.distance_km ≤ (k : ℚ) * 10) ≠ [] := by
      rw [Ne, List.filter_eq_nil_iff]
      push_neg
      exact ⟨c, hc, by simpa using hcle⟩
    have happ := evac_radius_loop_first_hit
      (evac_candidates hv centers lat lng) l 21 k 1 le_rfl hk1 hk20
      (by omega) hne (fun i hi1 hi2 => hbefore i hi1 hi2)
    have h10 : (((1 : ℕ) : ℚ) * 10) = 10 := by push_cast; ring
    rw [h10] at happ
    rw [hfuel]
    exact happ
  · intro hfar
    unfold nearest_evacuation_centers
    by_cases hemp : (evac_candidates hv centers lat lng).isEmpty
    · rw [if_pos hemp]
    · rw [if_neg hemp]
      exact evac_radius_loop_all_far (evac_candidates hv centers lat lng) l hfar
        (evac_loop_fuel 200 10) 10

/-- Concrete inputs for the C10 witness. -/
def wEvacHv : ℚ → ℚ → ℚ → ℚ → ℚ := fun _ _ center_lat _ => center_lat

def wCenters : List EvacCenter :=
  [{ name := "A", latitude := 15, longitude := 1, capacity := 50 },
   { name := "B", latitude := 4, longitude := 2, capacity := 80 }]

unseal List.merge List.mergeSort in
/-- Witness for C10: with one center 4 km away and one 15 km away, the
search stops at the 10 km ring and returns only the centers within it. -/
theorem nearest_centers_sorted_radius_witness :
    nearest_evacuation_centers wEvacHv wCenters 0 0 (some 3) 200 10
      = ((evac_candidates wEvacHv wCenters 0 0).filter
          (fun c => c.distance_km ≤ ((1 : ℕ) : ℚ) * 10)).take 3 ∧
    (nearest_evacuation_centers wEvacHv wCenters 0 0 (some 3) 200 10).length ≤ 3 := by
  refine ⟨(nearest_centers_sorted_radius wEvacHv wCenters 0 0 3).2.2.1 1 le_rfl
      (by omega) (by decide) (fun i hi1 hi2 => absurd hi2 (by omega)),
    (nearest_centers_sorted_radius wEvacHv wCenters 0 0 3).2.1⟩
